import Mathlib

/-!
Shallow embedding of the ECAP accreditation-tracking backend
(`backend/app/models.py`, `backend/app/routes/auth.py`,
`backend/app/routes/admin.py`).

Conventions: SQL integer keys are `Nat`; SQL `DateTime` values are
abstract clock ticks (`Nat`), taken as explicit arguments where the
source calls `datetime.utcnow()`; Python `float` is modelled by `ℚ`;
route handlers return an `Except ApiError` result paired with the
resulting table state, the error branch carrying the state the handler
leaves behind (the rolled-back one, except where the source visibly
commits before the failure point, see `login`).
-/

/-- Error taxonomy of the HTTP surface (spec section 7): 400, 401, 403,
404, 409 and the generic 500/502 dependency failure. -/
inductive ApiError where
  | validationError
  | authenticationError
  | authorizationError
  | notFoundError
  | conflictError
  | internalError
  deriving DecidableEq, Repr

/-- The closed set `Submission.SUBMISSION_STATUSES` (`models.py` 226-239). -/
inductive SubmissionStatus where
  | pending
  | approved_by_chair
  | rejected_by_chair
  | approved_by_admin
  | rejected_by_admin
  deriving DecidableEq, Repr

/-- The closed set `Submission.FILE_TYPES` (`models.py` 242). -/
inductive FileType where
  | pdf
  | doc
  | docx
  | video
  | link
  deriving DecidableEq, Repr

/-- A declared schema-level table constraint (`__table_args__`). -/
inductive TableConstraint where
  | uniqueConstraint (columns : List String)
  deriving DecidableEq, Repr

/-- `users` table columns (`models.py` 10-24). -/
structure User where
  id : Nat
  email : String
  password_hash : String
  name : String
  position_in_school : String
  is_admin : Bool
  is_active : Bool
  created_at : Nat
  updated_at : Nat
  last_login : Option Nat
  password_reset_token : Option String
  email_verified : Bool
  deriving DecidableEq, Repr

/-- `accreditations` table columns (`models.py` 52-62). -/
structure Accreditation where
  id : Nat
  name : String
  year : Nat
  description : Option String
  created_by : Nat
  created_at : Nat
  updated_at : Nat
  is_active : Bool
  deriving DecidableEq, Repr

/-- `programs` table columns (`models.py` 86-96). -/
structure Program where
  id : Nat
  name : String
  description : Option String
  due_date : Nat
  accreditation_id : Nat
  created_at : Nat
  updated_at : Nat
  is_active : Bool
  deriving DecidableEq, Repr

/-- `areas` table columns (`models.py` 119-129). -/
structure Area where
  id : Nat
  name : String
  description : Option String
  program_id : Nat
  chairperson_id : Option Nat
  created_at : Nat
  updated_at : Nat
  is_active : Bool
  deriving DecidableEq, Repr

/-- `parameters` table columns (`models.py` 155-165). -/
structure Parameter where
  id : Nat
  name : String
  description : Option String
  area_id : Nat
  assigned_member_id : Option Nat
  created_at : Nat
  updated_at : Nat
  is_active : Bool
  deriving DecidableEq, Repr

/-- `accreditation_members` table columns (`models.py` 189-197). -/
structure AccreditationMember where
  id : Nat
  accreditation_id : Nat
  user_id : Nat
  added_by : Nat
  added_at : Nat
  is_active : Bool
  deriving DecidableEq, Repr

/-- `submissions` table columns (`models.py` 244-256). -/
structure Submission where
  id : Nat
  parameter_id : Nat
  submitted_by : Nat
  file_path : Option String
  file_name : Option String
  file_type : Option FileType
  website_link : Option String
  status : SubmissionStatus
  submitted_at : Nat
  reviewed_at : Option Nat
  reviewed_by : Option Nat
  comments : Option String
  version : Nat
  deriving DecidableEq, Repr

/-- `progress_tracking` table columns (`models.py` 343-352). -/
structure ProgressTracking where
  id : Nat
  program_id : Nat
  area_id : Option Nat
  total_parameters : Nat
  completed_parameters : Nat
  progress_percentage : ℚ
  last_updated : Nat
  deriving DecidableEq, Repr

/-- Declared `__table_args__` of the `submissions` table: `models.py`
declares none for this table. -/
def submissionTableArgs : List TableConstraint := []

/-- Declared `__table_args__` of the `accreditation_members` table
(`models.py` 204): unique on (accreditation_id, user_id). -/
def accreditationMemberTableArgs : List TableConstraint :=
  [TableConstraint.uniqueConstraint ["accreditation_id", "user_id"]]

/-- Modelled from the spec: `datetime.isoformat` serialization of an
abstract clock tick; an injective stand-in. -/
def isoformat (t : Nat) : String := toString t

/-- Modelled from the spec: password hashing (`flask_bcrypt`) is an
external collaborator; an injective tagging function stands in for
`generate_password_hash`. -/
def bcryptGeneratePasswordHash (password : String) : String :=
  "bcrypt$" ++ password

/-- Modelled from the spec: `check_password_hash` of the external
collaborator, consistent with `bcryptGeneratePasswordHash`. -/
def bcryptCheckPasswordHash (stored password : String) : Bool :=
  stored == bcryptGeneratePasswordHash password

/-- Output shape of `User.to_dict` (`models.py` 34-46): exactly the
nine serialized keys, in particular neither `password_hash` nor
`password_reset_token`. -/
structure UserDict where
  id : Nat
  email : String
  name : String
  position_in_school : String
  is_admin : Bool
  is_active : Bool
  created_at : Option String
  last_login : Option String
  email_verified : Bool
  deriving DecidableEq, Repr

/-- `User.to_dict` (`models.py` 34-46). -/
def User.to_dict (u : User) : UserDict :=
  { id := u.id
    email := u.email
    name := u.name
    position_in_school := u.position_in_school
    is_admin := u.is_admin
    is_active := u.is_active
    created_at := some (isoformat u.created_at)
    last_login := u.last_login.map isoformat
    email_verified := u.email_verified }

/-- Python `round` ties-to-even on an exact rational, the documented
semantics of builtin `round`. -/
def roundHalfToEven (q : ℚ) : ℤ :=
  let f := ⌊q⌋
  let r := q - (f : ℚ)
  if r < 1 / 2 then f
  else if 1 / 2 < r then f + 1
  else if f % 2 = 0 then f else f + 1

/-- Python `round(x, 2)` on an exact rational. -/
def pythonRound2 (q : ℚ) : ℚ := (roundHalfToEven (q * 100) : ℚ) / 100

/-- `ProgressTracking.calculate_progress` (`models.py` 354-360): sets
`progress_percentage` to `completed/total*100` when `total > 0`, else
to `0.0`, and stamps `last_updated` with the current clock tick. -/
def ProgressTracking.calculate_progress (pt : ProgressTracking) (now : Nat) :
    ProgressTracking :=
  if 0 < pt.total_parameters then
    { pt with
      progress_percentage :=
        ((pt.completed_parameters : ℚ) / (pt.total_parameters : ℚ)) * 100
      last_updated := now }
  else
    { pt with progress_percentage := 0, last_updated := now }

/-- Output shape of `ProgressTracking.to_dict` (`models.py` 362-373). -/
structure ProgressDict where
  id : Nat
  program_id : Nat
  area_id : Option Nat
  total_parameters : Nat
  completed_parameters : Nat
  progress_percentage : ℚ
  last_updated : Option String
  program_name : Option String
  area_name : Option String
  deriving DecidableEq, Repr

/-- `ProgressTracking.to_dict` (`models.py` 362-373); the related
`program` and `area` rows resolved by the ORM relationship are passed
explicitly.  Note `round(self.progress_percentage, 2)` on line 369. -/
def ProgressTracking.to_dict (pt : ProgressTracking)
    (program : Option Program) (area : Option Area) : ProgressDict :=
  { id := pt.id
    program_id := pt.program_id
    area_id := pt.area_id
    total_parameters := pt.total_parameters
    completed_parameters := pt.completed_parameters
    progress_percentage := pythonRound2 pt.progress_percentage
    last_updated := some (isoformat pt.last_updated)
    program_name := program.map Program.name
    area_name := area.map Area.name }

/-- Request body of `POST /api/auth/register` (`auth.py` 44-75); the
optional `is_admin` key a caller may supply is carried to show the
handler never reads it. -/
structure RegisterRequest where
  email : Option String
  password : Option String
  name : Option String
  position_in_school : Option String
  is_admin : Option Bool
  deriving DecidableEq, Repr

/-- Autoincrement primary key assignment of the store: one past the
largest id in the table. -/
def nextUserId (users : List User) : Nat :=
  (users.map User.id).foldr max 0 + 1

/-- `register` (`auth.py` 44-75): requires the four fields to be
present and non-empty (Python truthiness), rejects a duplicate email
with 409, otherwise inserts a user with `is_admin=False` (line 65,
"Only admin can create other admins").  Errors leave the table
unchanged (`db.session.rollback()` on line 78). -/
def register (users : List User) (data : RegisterRequest) (now : Nat) :
    (Except ApiError User) × List User :=
  match data.email, data.password, data.name, data.position_in_school with
  | some e, some pw, some nm, some pos =>
    if e = "" ∨ pw = "" ∨ nm = "" ∨ pos = "" then
      (Except.error ApiError.validationError, users)
    else if users.any (fun u => u.email == e) then
      (Except.error ApiError.conflictError, users)
    else
      let u : User :=
        { id := nextUserId users
          email := e
          password_hash := bcryptGeneratePasswordHash pw
          name := nm
          position_in_school := pos
          is_admin := false
          is_active := true
          created_at := now
          updated_at := now
          last_login := none
          password_reset_token := none
          email_verified := false }
      (Except.ok u, users ++ [u])
  | _, _, _, _ => (Except.error ApiError.validationError, users)

/-- `login` (`auth.py` 10-42): validates the body, authenticates,
updates `last_login` and commits (lines 29-30), then creates the
access token (line 33).  `tokenCreationFails` models an exception
raised by the token collaborator after the commit: the handler's
`except` block (lines 40-42) returns 500 WITHOUT `db.session.rollback()`,
so the committed `last_login` write persists. -/
def login (users : List User) (email password : Option String) (now : Nat)
    (tokenCreationFails : Bool) : (Except ApiError String) × List User :=
  match email, password with
  | some e, some pw =>
    if e = "" ∨ pw = "" then (Except.error ApiError.validationError, users)
    else
      match users.find? (fun u => u.email == e) with
      | none => (Except.error ApiError.authenticationError, users)
      | some u =>
        if ¬ bcryptCheckPasswordHash u.password_hash pw then
          (Except.error ApiError.authenticationError, users)
        else if ¬ u.is_active then
          (Except.error ApiError.authenticationError, users)
        else
          let committed := users.map (fun v =>
            if v.email == e then { v with last_login := some now } else v)
          if tokenCreationFails then
            (Except.error ApiError.internalError, committed)
          else
            (Except.ok ("token$" ++ toString u.id), committed)
  | _, _ => (Except.error ApiError.validationError, users)

/-- A supplied file reference: path, name and a type from the closed
set `FILE_TYPES`. -/
structure FileRef where
  file_path : String
  file_name : String
  file_type : FileType
  deriving DecidableEq, Repr

/-- Payload of the Submit operation (spec section 4.1): an optional
file reference and an optional website link. -/
structure SubmitPayload where
  fileRef : Option FileRef
  website_link : Option String
  deriving DecidableEq, Repr

/-- Largest existing submission version for a parameter, `0` when the
parameter has no submissions (so the first insert gets version 1, the
column default of `models.py` 256). -/
def maxVersion (store : List Submission) (pid : Nat) : Nat :=
  ((store.filter (fun s => s.parameter_id == pid)).map Submission.version).foldr max 0

/-- Modelled from the spec: the Submit route is not under `src/`; per
spec section 4.1 the payload must supply either a file reference or a
website link (else `ValidationError`, nothing inserted), and a created
Submission gets `version = max existing version for the parameter + 1`
and status `pending`. -/
def submitSubmission (store : List Submission) (pid submitterId : Nat)
    (payload : SubmitPayload) (now newId : Nat) :
    (Except ApiError Submission) × List Submission :=
  if payload.fileRef = none ∧ payload.website_link = none then
    (Except.error ApiError.validationError, store)
  else
    let s : Submission :=
      { id := newId
        parameter_id := pid
        submitted_by := submitterId
        file_path := payload.fileRef.map FileRef.file_path
        file_name := payload.fileRef.map FileRef.file_name
        file_type := payload.fileRef.map FileRef.file_type
        website_link := payload.website_link
        status := SubmissionStatus.pending
        submitted_at := now
        reviewed_at := none
        reviewed_by := none
        comments := none
        version := maxVersion store pid + 1 }
    (Except.ok s, store ++ [s])

/-- The field updates the admin review applies on success (spec
section 4.1): new status, reviewer identity, review timestamp and the
review comments. -/
def reviewedByAdmin (s : Submission) (approve : Bool)
    (reviewerId now : Nat) (comm : Option String) : Submission :=
  { s with
    status := if approve then SubmissionStatus.approved_by_admin
              else SubmissionStatus.rejected_by_admin
    reviewed_by := some reviewerId
    reviewed_at := some now
    comments := comm }

/-- Modelled from the spec: the admin review route is not under
`src/`; per spec sections 4.1 and 7 it fails with the illegal-transition
`ConflictError` unless the current status is `approved_by_chair`
(leaving the store unchanged), and otherwise records decision,
reviewer and timestamp on the row. -/
def reviewAsAdmin (store : List Submission) (sid : Nat) (approve : Bool)
    (reviewerId now : Nat) (comm : Option String) :
    (Except ApiError Submission) × List Submission :=
  match store.find? (fun s => s.id == sid) with
  | none => (Except.error ApiError.notFoundError, store)
  | some s =>
    if s.status = SubmissionStatus.approved_by_chair then
      let s' := reviewedByAdmin s approve reviewerId now comm
      (Except.ok s', store.map (fun t => if t.id == sid then s' else t))
    else
      (Except.error ApiError.conflictError, store)

/-- Modelled from the spec: the membership route is not under `src/`;
the storage collaborator enforces the unique constraint declared in
`accreditationMemberTableArgs` (`models.py` 204), so inserting a row
whose (accreditation_id, user_id) pair already exists is rejected with
the 409 `ConflictError` and the table is unchanged. -/
def addAccreditationMember (members : List AccreditationMember)
    (row : AccreditationMember) :
    (Except ApiError AccreditationMember) × List AccreditationMember :=
  if members.any (fun m =>
      m.accreditation_id == row.accreditation_id && m.user_id == row.user_id) then
    (Except.error ApiError.conflictError, members)
  else
    (Except.ok row, members ++ [row])

/-- The relational state: one list per table of the ownership tree. -/
structure Db where
  accreditations : List Accreditation
  programs : List Program
  areas : List Area
  parameters : List Parameter
  submissions : List Submission
  members : List AccreditationMember
  progress : List ProgressTracking
  deriving DecidableEq, Repr

/-- Ids of the programs owned by accreditation `aid`
(`models.py` 65: `cascade='all, delete-orphan'` on
`Accreditation.programs`). -/
def deadProgramIds (db : Db) (aid : Nat) : List Nat :=
  (db.programs.filter (fun p => p.accreditation_id == aid)).map Program.id

/-- Ids of the areas owned by those programs (`models.py` 99:
cascade on `Program.areas`). -/
def deadAreaIds (db : Db) (aid : Nat) : List Nat :=
  (db.areas.filter (fun a => decide (a.program_id ∈ deadProgramIds db aid))).map Area.id

/-- Ids of the parameters owned by those areas (`models.py` 132:
cascade on `Area.parameters`). -/
def deadParameterIds (db : Db) (aid : Nat) : List Nat :=
  (db.parameters.filter (fun q => decide (q.area_id ∈ deadAreaIds db aid))).map Parameter.id

/-- Modelled from the spec: the delete route is not under `src/`; the
cascade follows the `cascade='all, delete-orphan'` relationship
declarations of `models.py` (65-66, 99-100, 132-135, 169): deleting an
Accreditation removes its membership rows and its Programs, and
transitively their Areas, ProgressTracking rows, Parameters and
Submissions. -/
def deleteAccreditation (db : Db) (aid : Nat) : Db :=
  { accreditations := db.accreditations.filter (fun c => !(c.id == aid))
    programs := db.programs.filter (fun p => !(p.accreditation_id == aid))
    areas := db.areas.filter (fun a => !decide (a.program_id ∈ deadProgramIds db aid))
    parameters := db.parameters.filter (fun q => !decide (q.area_id ∈ deadAreaIds db aid))
    submissions := db.submissions.filter (fun s => !decide (s.parameter_id ∈ deadParameterIds db aid))
    members := db.members.filter (fun m => !(m.accreditation_id == aid))
    progress := db.progress.filter (fun pr =>
      !(decide (pr.program_id ∈ deadProgramIds db aid) ||
        (pr.area_id.map (fun a => decide (a ∈ deadAreaIds db aid))).getD false)) }

/-- A progress row with 1 of 3 parameters completed. -/
def ptEx : ProgressTracking :=
  { id := 1, program_id := 1, area_id := none, total_parameters := 3
    completed_parameters := 1, progress_percentage := 0, last_updated := 0 }

/-- A pending submission, used as a concrete review input. -/
def s0 : Submission :=
  { id := 1, parameter_id := 1, submitted_by := 2, file_path := none
    file_name := none, file_type := none, website_link := some "https://e.x"
    status := SubmissionStatus.pending, submitted_at := 0, reviewed_at := none
    reviewed_by := none, comments := none, version := 1 }

/-- A payload supplying neither a file reference nor a link. -/
def emptyPayload : SubmitPayload := { fileRef := none, website_link := none }

/-- A payload supplying a website link only. -/
def linkPayload : SubmitPayload :=
  { fileRef := none, website_link := some "https://e.x" }

/-- An existing version-1 submission for parameter 1. -/
def subV1 : Submission :=
  { id := 1, parameter_id := 1, submitted_by := 9, file_path := none
    file_name := none, file_type := none, website_link := some "https://e.x"
    status := SubmissionStatus.pending, submitted_at := 0, reviewed_at := none
    reviewed_by := none, comments := none, version := 1 }

/-- The row `submitSubmission [subV1] 1 9 linkPayload 5 2` inserts. -/
def subNew : Submission :=
  { id := 2, parameter_id := 1, submitted_by := 9, file_path := none
    file_name := none, file_type := none, website_link := some "https://e.x"
    status := SubmissionStatus.pending, submitted_at := 5, reviewed_at := none
    reviewed_by := none, comments := none, version := 2 }

/-- An active user with known credentials and no prior login. -/
def u6 : User :=
  { id := 1, email := "chair@ecap.com"
    password_hash := bcryptGeneratePasswordHash "pw123", name := "C"
    position_in_school := "Chair", is_admin := false, is_active := true
    created_at := 0, updated_at := 0, last_login := none
    password_reset_token := none, email_verified := false }

/-- A registration body that tries to claim admin rights. -/
def rq0 : RegisterRequest :=
  { email := some "a@b.c", password := some "pw", name := some "Ann"
    position_in_school := some "Dean", is_admin := some true }

/-- The user `register [] rq0 7` creates. -/
def regUser0 : User :=
  { id := 1, email := "a@b.c", password_hash := bcryptGeneratePasswordHash "pw"
    name := "Ann", position_in_school := "Dean", is_admin := false
    is_active := true, created_at := 7, updated_at := 7, last_login := none
    password_reset_token := none, email_verified := false }

/-- An existing membership row for pair (1, 2). -/
def m0 : AccreditationMember :=
  { id := 1, accreditation_id := 1, user_id := 2, added_by := 1
    added_at := 0, is_active := true }

/-- A duplicate membership row for the same pair (1, 2). -/
def m0dup : AccreditationMember :=
  { id := 2, accreditation_id := 1, user_id := 2, added_by := 1
    added_at := 3, is_active := true }

/-- A two-chain database: accreditation 1 and accreditation 2, each
owning one program, area, parameter and submission. -/
def db0 : Db :=
  { accreditations :=
      [{ id := 1, name := "A1", year := 2024, description := none
         created_by := 1, created_at := 0, updated_at := 0, is_active := true },
       { id := 2, name := "A2", year := 2025, description := none
         created_by := 1, created_at := 0, updated_at := 0, is_active := true }]
    programs :=
      [{ id := 1, name := "P1", description := none, due_date := 9
         accreditation_id := 1, created_at := 0, updated_at := 0, is_active := true },
       { id := 2, name := "P2", description := none, due_date := 9
         accreditation_id := 2, created_at := 0, updated_at := 0, is_active := true }]
    areas :=
      [{ id := 1, name := "R1", description := none, program_id := 1
         chairperson_id := none, created_at := 0, updated_at := 0, is_active := true },
       { id := 2, name := "R2", description := none, program_id := 2
         chairperson_id := none, created_at := 0, updated_at := 0, is_active := true }]
    parameters :=
      [{ id := 1, name := "Q1", description := none, area_id := 1
         assigned_member_id := none, created_at := 0, updated_at := 0, is_active := true },
       { id := 2, name := "Q2", description := none, area_id := 2
         assigned_member_id := none, created_at := 0, updated_at := 0, is_active := true }]
    submissions :=
      [{ id := 1, parameter_id := 1, submitted_by := 2, file_path := none
         file_name := none, file_type := none, website_link := some "https://e.x"
         status := SubmissionStatus.pending, submitted_at := 0, reviewed_at := none
         reviewed_by := none, comments := none, version := 1 },
       { id := 2, parameter_id := 2, submitted_by := 2, file_path := none
         file_name := none, file_type := none, website_link := some "https://e.x"
         status := SubmissionStatus.pending, submitted_at := 0, reviewed_at := none
         reviewed_by := none, comments := none, version := 1 }]
    members := []
    progress := [] }

/-- C1 counterexample: with 1 of 3 parameters completed,
`calculate_progress` stores the exact value `100/3`, which is not
equal to its 2-decimal rounding `33.33` — the stored
`progress_percentage` is not rounded. -/
theorem c1_calculate_progress_rounding_counterexample :
    (ptEx.calculate_progress 5).progress_percentage ≠
      pythonRound2
        (((ptEx.completed_parameters : ℚ) / (ptEx.total_parameters : ℚ)) * 100) := by
  have h1 : (ptEx.calculate_progress 5).progress_percentage = 100 / 3 := by
    norm_num [ptEx, ProgressTracking.calculate_progress]
  have harg :
      ((ptEx.completed_parameters : ℚ) / (ptEx.total_parameters : ℚ)) * 100 =
        100 / 3 := by
    norm_num [ptEx]
  have hf : ⌊((100 : ℚ) / 3 * 100)⌋ = 3333 := by
    rw [Int.floor_eq_iff]
    norm_num
  have h2 : pythonRound2 ((100 : ℚ) / 3) = 3333 / 100 := by
    simp only [pythonRound2, roundHalfToEven, hf]
    rw [if_pos (by norm_num)]
    norm_num
  rw [h1, harg, h2]
  norm_num

/-- C1 amended: after `calculate_progress` runs, `progress_percentage`
equals `completed_parameters/total_parameters*100` exactly (unrounded)
when `total_parameters > 0`, and `0.0` when `total_parameters == 0`;
the rounding to 2 decimal places is applied only in the JSON
projection `to_dict`. -/
theorem c1_calculate_progress_amended :
    ∀ (pt : ProgressTracking) (now : Nat),
      (0 < pt.total_parameters →
        (pt.calculate_progress now).progress_percentage =
          ((pt.completed_parameters : ℚ) / (pt.total_parameters : ℚ)) * 100) ∧
      (pt.total_parameters = 0 →
        (pt.calculate_progress now).progress_percentage = 0) ∧
      (∀ (program : Option Program) (area : Option Area),
        (pt.to_dict program area).progress_percentage =
          pythonRound2 pt.progress_percentage) := by
  intro pt now
  refine ⟨?_, ?_, ?_⟩
  · intro h
    simp [ProgressTracking.calculate_progress, h]
  · intro h
    simp [ProgressTracking.calculate_progress, h]
  · intro program area
    rfl

/-- C1 witness: the amended statement evaluated on the 1-of-3 record. -/
theorem c1_calculate_progress_amended_witness :
    (ptEx.calculate_progress 5).progress_percentage =
      ((ptEx.completed_parameters : ℚ) / (ptEx.total_parameters : ℚ)) * 100 :=
  (c1_calculate_progress_amended ptEx 5).1 (by decide)

/-- C5: `calculate_progress` fully replaces the prior value, so a
second consecutive run (the clock tick is an explicit input; with no
intervening mutation the second run maps the state exactly where a
single run would) yields an identical record. -/
theorem c5_calculate_progress_idempotent :
    ∀ (pt : ProgressTracking) (t1 t2 : Nat),
      (pt.calculate_progress t1).calculate_progress t2 =
        pt.calculate_progress t2 := by
  intro pt t1 t2
  by_cases h : 0 < pt.total_parameters <;>
    simp [ProgressTracking.calculate_progress, h]

/-- C10: `User.to_dict` does not read `password_hash` or
`password_reset_token` — two users differing only in those fields
serialize identically. -/
theorem c10_to_dict_hides_secrets :
    ∀ (u : User) (h1 h2 : String) (t1 t2 : Option String),
      User.to_dict { u with password_hash := h1, password_reset_token := t1 } =
        User.to_dict { u with password_hash := h2, password_reset_token := t2 } := by
  intro u h1 h2 t1 t2
  rfl

/-- C2: admin review of a submission whose status is not
`approved_by_chair` fails with the illegal-transition `ConflictError`
and leaves the store (hence every field of the submission) unchanged;
when the status is `approved_by_chair` it sets the status to
`approved_by_admin` or `rejected_by_admin` and records reviewer and
timestamp on the row. -/
theorem c2_review_as_admin_guard :
    ∀ (store : List Submission) (sid : Nat) (approve : Bool)
      (reviewerId now : Nat) (comm : Option String) (s : Submission),
      store.find? (fun t => t.id == sid) = some s →
      (s.status ≠ SubmissionStatus.approved_by_chair →
        reviewAsAdmin store sid approve reviewerId now comm =
          (Except.error ApiError.conflictError, store)) ∧
      (s.status = SubmissionStatus.approved_by_chair →
        reviewAsAdmin store sid approve reviewerId now comm =
          (Except.ok (reviewedByAdmin s approve reviewerId now comm),
           store.map (fun t =>
             if t.id == sid then reviewedByAdmin s approve reviewerId now comm
             else t))) := by
  intro store sid approve reviewerId now comm s hfind
  simp only [reviewAsAdmin, hfind]
  constructor
  · intro hs
    rw [if_neg hs]
  · intro hs
    rw [if_pos hs]

/-- C2 witness: reviewing the pending submission `s0` as admin is
rejected with `ConflictError` and the store is unchanged. -/
theorem c2_review_as_admin_guard_witness :
    reviewAsAdmin [s0] 1 true 7 9 none =
      (Except.error ApiError.conflictError, [s0]) :=
  (c2_review_as_admin_guard [s0] 1 true 7 9 none s0 rfl).1 (by decide)

/-- C3: a Submit whose payload supplies neither a file reference nor a
website link returns `ValidationError` with the store unchanged, and a
Submission row is appended (with status `pending`) only when the
result is a success, which requires at least one of the two to be
supplied. -/
theorem c3_submit_requires_file_or_link :
    ∀ (store : List Submission) (pid uid : Nat) (payload : SubmitPayload)
      (now newId : Nat),
      ((payload.fileRef = none ∧ payload.website_link = none) →
        submitSubmission store pid uid payload now newId =
          (Except.error ApiError.validationError, store)) ∧
      (∀ s, (submitSubmission store pid uid payload now newId).1 = Except.ok s →
        (payload.fileRef ≠ none ∨ payload.website_link ≠ none) ∧
        (submitSubmission store pid uid payload now newId).2 = store ++ [s] ∧
        s.status = SubmissionStatus.pending) := by
  intro store pid uid payload now newId
  constructor
  · intro hc
    unfold submitSubmission
    rw [if_pos hc]
  · intro s hs
    by_cases hc : payload.fileRef = none ∧ payload.website_link = none
    · rw [show submitSubmission store pid uid payload now newId =
          (Except.error ApiError.validationError, store) from by
            unfold submitSubmission; rw [if_pos hc]] at hs
      exact absurd hs (by simp)
    · refine ⟨not_and_or.mp hc, ?_, ?_⟩
      · unfold submitSubmission at hs ⊢
        rw [if_neg hc] at hs ⊢
        simp only [Except.ok.injEq] at hs
        rw [← hs]
      · unfold submitSubmission at hs
        rw [if_neg hc] at hs
        simp only [Except.ok.injEq] at hs
        rw [← hs]

/-- C3 witness: submitting the empty payload over the empty store
fails with `ValidationError` and inserts nothing. -/
theorem c3_submit_requires_file_or_link_witness :
    submitSubmission [] 1 2 emptyPayload 0 1 =
      (Except.error ApiError.validationError, []) :=
  (c3_submit_requires_file_or_link [] 1 2 emptyPayload 0 1).1 ⟨rfl, rfl⟩

/-- Every element of a list of naturals is bounded by the fold of
`max` over the list. -/
theorem le_foldr_max (l : List Nat) (x : Nat) (hx : x ∈ l) :
    x ≤ l.foldr max 0 := by
  induction l with
  | nil => cases hx
  | cons a t ih =>
    rcases List.mem_cons.mp hx with h | h
    · subst h
      exact le_max_left _ _
    · exact le_trans (ih h) (le_max_right _ _)

/-- C4 counterexample: `models.py` declares no `__table_args__` unique
constraint on (parameter_id, version) for the `submissions` table —
the store does not enforce the claimed uniqueness constraint. -/
theorem c4_no_unique_constraint_counterexample :
    TableConstraint.uniqueConstraint ["parameter_id", "version"] ∉
      submissionTableArgs := by
  simp [submissionTableArgs]

/-- C4 amended: every newly created Submission gets
`version = (max existing version for its parameter) + 1`, strictly
greater than the version of every existing Submission of that
parameter (so versions stay unique and increasing per Parameter); the
schema itself declares no uniqueness constraint on
(parameter_id, version). -/
theorem c4_version_unique_increasing_amended :
    ∀ (store : List Submission) (pid uid : Nat) (payload : SubmitPayload)
      (now newId : Nat) (s : Submission),
      (submitSubmission store pid uid payload now newId).1 = Except.ok s →
      s.version = maxVersion store pid + 1 ∧
      ∀ t ∈ store, t.parameter_id = pid → t.version < s.version := by
  intro store pid uid payload now newId s hs
  by_cases hc : payload.fileRef = none ∧ payload.website_link = none
  · rw [show (submitSubmission store pid uid payload now newId).1 =
        Except.error ApiError.validationError from by
          unfold submitSubmission; rw [if_pos hc]] at hs
    exact absurd hs (by simp)
  · unfold submitSubmission at hs
    rw [if_neg hc] at hs
    simp only [Except.ok.injEq] at hs
    refine ⟨by rw [← hs], ?_⟩
    intro t ht htp
    have hmem : t.version ∈
        ((store.filter (fun r => r.parameter_id == pid)).map Submission.version) :=
      List.mem_map.mpr ⟨t, List.mem_filter.mpr ⟨ht, by simp [htp]⟩, rfl⟩
    have hle : t.version ≤ maxVersion store pid := le_foldr_max _ _ hmem
    have hv : s.version = maxVersion store pid + 1 := by rw [← hs]
    rw [hv]
    exact Nat.lt_succ_of_le hle

/-- C4 witness: over a store holding the version-1 submission `subV1`
for parameter 1, the inserted row `subNew` has version
`maxVersion + 1 = 2`. -/
theorem c4_version_unique_increasing_amended_witness :
    subNew.version = maxVersion [subV1] 1 + 1 :=
  (c4_version_unique_increasing_amended [subV1] 1 9 linkPayload 5 2 subNew rfl).1

/-- C6 counterexample: a `login` request that authenticates, commits
the `last_login` write (auth.py 29-30) and then hits a token-creation
failure returns an error (auth.py 40-42, which has no
`db.session.rollback()`) while the users table differs from its
pre-request state — an entity is observable in an intermediate state
after a failed mutating operation. -/
theorem c6_login_no_rollback_counterexample :
    (login [u6] (some "chair@ecap.com") (some "pw123") 99 true).1 =
      Except.error ApiError.internalError ∧
    (login [u6] (some "chair@ecap.com") (some "pw123") 99 true).2 ≠ [u6] := by
  constructor
  · rfl
  · decide

/-- C6 amended: all mutating handlers except `login` roll back on
failure (their error branches return the pre-request table state);
`login` commits the `last_login` update before creating the token, and
a token-creation failure afterwards returns the 500 error with that
committed write still in place. -/
theorem c6_login_commits_before_failure_amended :
    (∀ (users : List User) (data : RegisterRequest) (now : Nat) (e : ApiError),
      (register users data now).1 = Except.error e →
      (register users data now).2 = users) ∧
    (∀ (store : List Submission) (pid uid : Nat) (payload : SubmitPayload)
        (now newId : Nat) (e : ApiError),
      (submitSubmission store pid uid payload now newId).1 = Except.error e →
      (submitSubmission store pid uid payload now newId).2 = store) ∧
    (∀ (store : List Submission) (sid : Nat) (approve : Bool)
        (reviewerId now : Nat) (comm : Option String) (e : ApiError),
      (reviewAsAdmin store sid approve reviewerId now comm).1 = Except.error e →
      (reviewAsAdmin store sid approve reviewerId now comm).2 = store) ∧
    (∀ (users : List User) (e pw : String) (now : Nat) (u : User),
      e ≠ "" → pw ≠ "" →
      users.find? (fun v => v.email == e) = some u →
      bcryptCheckPasswordHash u.password_hash pw = true →
      u.is_active = true →
      login users (some e) (some pw) now true =
        (Except.error ApiError.internalError,
         users.map (fun v =>
           if v.email == e then { v with last_login := some now } else v))) := by
  refine ⟨?_, ?_, ?_, ?_⟩
  · intro users data now e h
    unfold register at h ⊢
    rcases data with ⟨eml, pw, nm, pos, adm⟩
    cases eml <;> cases pw <;> cases nm <;> cases pos <;> simp at h ⊢
    split_ifs at h ⊢ <;> simp_all
  · intro store pid uid payload now newId e h
    unfold submitSubmission at h ⊢
    split_ifs at h ⊢
    simp_all
  · intro store sid approve reviewerId now comm e h
    unfold reviewAsAdmin at h ⊢
    cases hf : store.find? (fun s => s.id == sid) <;> simp [hf] at h ⊢
    split_ifs at h ⊢
    simp_all
  · intro users e pw now u he hpw hfind hchk hact
    simp only [login, hfind]
    rw [if_neg (by simp [he, hpw]), if_neg (by simp [hchk]),
      if_neg (by simp [hact]), if_pos trivial]

/-- C6 witness: the amended statement's `login` part evaluated on the
concrete user `u6` with a token-creation failure. -/
theorem c6_login_commits_before_failure_amended_witness :
    login [u6] (some "chair@ecap.com") (some "pw123") 99 true =
      (Except.error ApiError.internalError,
       [u6].map (fun v =>
         if v.email == "chair@ecap.com" then { v with last_login := some 99 }
         else v)) :=
  c6_login_commits_before_failure_amended.2.2.2 [u6] "chair@ecap.com" "pw123"
    99 u6 (by decide) (by decide) rfl rfl rfl

/-- C8: the schema declares the (accreditation_id, user_id) unique
constraint, inserting a membership whose pair already exists is
rejected with `ConflictError` leaving the table unchanged, and an
accepted insert preserves at-most-one-row-per-pair. -/
theorem c8_membership_unique :
    ∀ (members : List AccreditationMember) (row : AccreditationMember),
      TableConstraint.uniqueConstraint ["accreditation_id", "user_id"] ∈
        accreditationMemberTableArgs ∧
      ((∃ m ∈ members, m.accreditation_id = row.accreditation_id ∧
          m.user_id = row.user_id) →
        addAccreditationMember members row =
          (Except.error ApiError.conflictError, members)) ∧
      (members.Pairwise (fun m1 m2 =>
          ¬(m1.accreditation_id = m2.accreditation_id ∧
            m1.user_id = m2.user_id)) →
        (addAccreditationMember members row).2.Pairwise (fun m1 m2 =>
          ¬(m1.accreditation_id = m2.accreditation_id ∧
            m1.user_id = m2.user_id))) := by
  intro members row
  refine ⟨by simp [accreditationMemberTableArgs], ?_, ?_⟩
  · rintro ⟨m, hm, h1, h2⟩
    have hany : members.any (fun m =>
        m.accreditation_id == row.accreditation_id &&
        m.user_id == row.user_id) = true :=
      List.any_eq_true.mpr ⟨m, hm, by simp [h1, h2]⟩
    unfold addAccreditationMember
    rw [if_pos hany]
  · intro hpw
    by_cases hany : members.any (fun m =>
        m.accreditation_id == row.accreditation_id &&
        m.user_id == row.user_id) = true
    · unfold addAccreditationMember
      rw [if_pos hany]
      exact hpw
    · unfold addAccreditationMember
      rw [if_neg hany]
      simp only []
      rw [List.pairwise_append]
      refine ⟨hpw, List.pairwise_singleton _ _, ?_⟩
      intro a ha b hb
      rw [List.mem_singleton] at hb
      subst hb
      rintro ⟨e1, e2⟩
      exact hany (List.any_eq_true.mpr ⟨a, ha, by simp [e1, e2]⟩)

/-- C8 witness: inserting the duplicate pair (1, 2) over a table that
already holds it is rejected and leaves the table unchanged. -/
theorem c8_membership_unique_witness :
    addAccreditationMember [m0] m0dup =
      (Except.error ApiError.conflictError, [m0]) :=
  (c8_membership_unique [m0] m0dup).2.1 (by decide)

/-- C9: whatever `is_admin` value the request body carries, a user the
`register` endpoint accepts is created with `is_admin = False`
(auth.py 65), and is exactly the row appended to the table. -/
theorem c9_register_forces_nonadmin :
    ∀ (users : List User) (data : RegisterRequest) (now : Nat) (u : User)
      (users' : List User),
      register users data now = (Except.ok u, users') →
      u.is_admin = false ∧ users' = users ++ [u] := by
  intro users data now u users' h
  unfold register at h
  split at h
  · split_ifs at h with h1 h2
    · exact absurd h (by simp)
    · exact absurd h (by simp)
    · simp only [Prod.mk.injEq, Except.ok.injEq] at h
      rcases h with ⟨hu, husers⟩
      subst hu
      exact ⟨rfl, husers.symm⟩
  · exact absurd h (by simp)

/-- C9 witness: registering `rq0`, whose body claims `is_admin = true`,
creates the non-admin user `regUser0`. -/
theorem c9_register_forces_nonadmin_witness :
    regUser0.is_admin = false ∧ [regUser0] = [] ++ [regUser0] :=
  c9_register_forces_nonadmin [] rq0 7 regUser0 [regUser0] rfl

/-- C7: deleting an Accreditation cascades down the ownership tree: no
remaining Program belongs to it, no remaining Area belongs to one of
its (deleted) Programs, no remaining Parameter belongs to such an
Area, and no remaining Submission belongs to such a Parameter. -/
theorem c7_delete_accreditation_cascades :
    ∀ (db : Db) (aid : Nat),
      (∀ p ∈ (deleteAccreditation db aid).programs, p.accreditation_id ≠ aid) ∧
      (∀ a ∈ (deleteAccreditation db aid).areas, ∀ p ∈ db.programs,
        p.accreditation_id = aid → a.program_id ≠ p.id) ∧
      (∀ q ∈ (deleteAccreditation db aid).parameters, ∀ a ∈ db.areas,
        ∀ p ∈ db.programs,
        p.accreditation_id = aid → a.program_id = p.id → q.area_id ≠ a.id) ∧
      (∀ s ∈ (deleteAccreditation db aid).submissions, ∀ q ∈ db.parameters,
        ∀ a ∈ db.areas, ∀ p ∈ db.programs,
        p.accreditation_id = aid → a.program_id = p.id → q.area_id = a.id →
        s.parameter_id ≠ q.id) := by
  intro db aid
  have memProg : ∀ p ∈ db.programs, p.accreditation_id = aid →
      p.id ∈ deadProgramIds db aid := by
    intro p hp hacc
    exact List.mem_map.mpr ⟨p, List.mem_filter.mpr ⟨hp, by simp [hacc]⟩, rfl⟩
  have memArea : ∀ a ∈ db.areas, ∀ p ∈ db.programs,
      p.accreditation_id = aid → a.program_id = p.id →
      a.id ∈ deadAreaIds db aid := by
    intro a ha p hp hacc hap
    refine List.mem_map.mpr ⟨a, List.mem_filter.mpr ⟨ha, ?_⟩, rfl⟩
    exact decide_eq_true (hap ▸ memProg p hp hacc)
  have memParam : ∀ q ∈ db.parameters, ∀ a ∈ db.areas, ∀ p ∈ db.programs,
      p.accreditation_id = aid → a.program_id = p.id → q.area_id = a.id →
      q.id ∈ deadParameterIds db aid := by
    intro q hq a ha p hp hacc hap hqa
    refine List.mem_map.mpr ⟨q, List.mem_filter.mpr ⟨hq, ?_⟩, rfl⟩
    exact decide_eq_true (hqa ▸ memArea a ha p hp hacc hap)
  refine ⟨?_, ?_, ?_, ?_⟩
  · intro p hp heq
    rcases List.mem_filter.mp hp with ⟨-, h2⟩
    simp [heq] at h2
  · intro a ha p hp hacc heq
    rcases List.mem_filter.mp ha with ⟨-, h2⟩
    have hnot : a.program_id ∉ deadProgramIds db aid := by simpa using h2
    exact hnot (heq ▸ memProg p hp hacc)
  · intro q hq a ha p hp hacc hap heq
    rcases List.mem_filter.mp hq with ⟨-, h2⟩
    have hnot : q.area_id ∉ deadAreaIds db aid := by simpa using h2
    exact hnot (heq ▸ memArea a ha p hp hacc hap)
  · intro s hs q hq a ha p hp hacc hap hqa heq
    rcases List.mem_filter.mp hs with ⟨-, h2⟩
    have hnot : s.parameter_id ∉ deadParameterIds db aid := by simpa using h2
    exact hnot (heq ▸ memParam q hq a ha p hp hacc hap hqa)

/-- C7 witness: in the two-chain database `db0`, after deleting
accreditation 1, the surviving program (program 2) does not belong to
accreditation 1 and the surviving submission (submission 2) does not
belong to parameter 1 of the deleted chain. -/
theorem c7_delete_accreditation_cascades_witness :
    ((db0.programs.get ⟨1, by decide⟩).accreditation_id ≠ 1) ∧
    ((db0.submissions.get ⟨1, by decide⟩).parameter_id ≠
      (db0.parameters.get ⟨0, by decide⟩).id) :=
  ⟨(c7_delete_accreditation_cascades db0 1).1 (db0.programs.get ⟨1, by decide⟩)
      (by decide),
   (c7_delete_accreditation_cascades db0 1).2.2.2
      (db0.submissions.get ⟨1, by decide⟩) (by decide)
      (db0.parameters.get ⟨0, by decide⟩) (by decide)
      (db0.areas.get ⟨0, by decide⟩) (by decide)
      (db0.programs.get ⟨0, by decide⟩) (by decide) rfl rfl rfl⟩
